import Mathlib

/-!
Shallow embedding of `test_tool_calls.py` (russellw/wex): an LLM tool-call
conformance harness.  Python values flowing through the harness (JSON-decoded
objects, tool arguments) are modelled by `PyVal`; `json.loads` and the builtin
`eval` are external to the repository and are passed as explicit function
parameters of type `String → Except String PyVal` (respectively
`PyVal → Except String PyVal`), where `Except.error` models a raised
exception.  Machine-level resource limits (recursion depth, memory) are
outside the model.
-/

/-- Model of the Python/JSON values the harness manipulates. -/
inductive PyVal where
  | none : PyVal
  | bool : Bool → PyVal
  | int : Int → PyVal
  | str : String → PyVal
  | list : List PyVal → PyVal
  | dict : List (String × PyVal) → PyVal

/-- Python truthiness (`if not x`) for the modelled values. -/
def truthy : PyVal → Bool
  | PyVal.none => false
  | PyVal.bool b => b
  | PyVal.int n => n != 0
  | PyVal.str s => s != ""
  | PyVal.list xs => !xs.isEmpty
  | PyVal.dict kvs => !kvs.isEmpty

/-- Python type name, used in modelled `AttributeError` messages. -/
def typeName : PyVal → String
  | PyVal.none => "NoneType"
  | PyVal.bool _ => "bool"
  | PyVal.int _ => "int"
  | PyVal.str _ => "str"
  | PyVal.list _ => "list"
  | PyVal.dict _ => "dict"

/-- First binding of a key in a modelled dict (Python dict keys are unique). -/
def lookupFirst : List (String × PyVal) → String → Option PyVal
  | [], _ => Option.none
  | (k, v) :: rest, key => if k = key then Option.some v else lookupFirst rest key

/-- Python `key in d` on a modelled dict. -/
def hasKey (kvs : List (String × PyVal)) (k : String) : Bool :=
  (lookupFirst kvs k).isSome

/-- Python `d[key]` where the key is known to be present (`PyVal.none`
is an unreachable fallback). -/
def dictGet (kvs : List (String × PyVal)) (k : String) : PyVal :=
  (lookupFirst kvs k).getD PyVal.none

mutual

/-- Model of Python `repr` on the modelled values. -/
def pyRepr : PyVal → String
  | PyVal.none => "None"
  | PyVal.bool b => cond b "True" "False"
  | PyVal.int n => toString n
  | PyVal.str s => "\x27" ++ s ++ "\x27"
  | PyVal.list xs => "[" ++ pyReprSeq xs ++ "]"
  | PyVal.dict kvs => "\x7b" ++ pyReprKVs kvs ++ "\x7d"

/-- Comma-separated `repr` of a list's elements. -/
def pyReprSeq : List PyVal → String
  | [] => ""
  | [x] => pyRepr x
  | x :: rest => pyRepr x ++ ", " ++ pyReprSeq rest

/-- Comma-separated `repr` of a dict's entries. -/
def pyReprKVs : List (String × PyVal) → String
  | [] => ""
  | [(k, v)] => "\x27" ++ k ++ "\x27: " ++ pyRepr v
  | (k, v) :: rest => "\x27" ++ k ++ "\x27: " ++ pyRepr v ++ ", " ++ pyReprKVs rest

end

/-- Model of Python `str(x)` as used in f-strings: a string renders as
itself, anything else as its `repr`. -/
def pyToStr : PyVal → String
  | PyVal.str s => s
  | v => pyRepr v

/-- `TestStatus` enum of the source. -/
inductive TestStatus where
  | PASS : TestStatus
  | FAIL : TestStatus
  | PARTIAL : TestStatus
  | SKIP : TestStatus
deriving DecidableEq

/-- `TestCase` dataclass of the source. -/
structure TestCase where
  name : String
  description : String
  system_prompt : String
  user_message : String
  expected_tools : List String
  success_criteria : String
  timeout : Nat := 3600

/-- `ToolCallResult` dataclass of the source.  `tool_name` and `arguments`
are `PyVal` because they flow in unchecked from decoded model output. -/
structure ToolCallResult where
  tool_name : PyVal
  arguments : PyVal
  success : Bool
  error : Option String := Option.none

/-- `TestResult` dataclass of the source (the wall-clock `duration` field
is not modelled). -/
structure TestResult where
  test_name : String
  result : TestStatus
  tool_calls : List ToolCallResult
  response_content : String
  notes : String := ""

/-- One transcript message (`{"role": ..., "content": ...}`). -/
structure Message where
  role : String
  content : String
deriving DecidableEq

/-- `arguments.get(key, "")` on a modelled value: succeeds on a dict,
raises a modelled `AttributeError` on anything else. -/
def pyGetStrD (v : PyVal) (k : String) : Except String PyVal :=
  match v with
  | PyVal.dict kvs => Except.ok ((lookupFirst kvs k).getD (PyVal.str ""))
  | other =>
      Except.error ("\x27" ++ typeName other ++ "\x27 object has no attribute \x27get\x27")

/-- Required parameters of each built-in tool, from the registry returned by
`_get_test_tools` (the `"required"` field of each schema). -/
def requiredParams : String → List String
  | "write_file" => ["path", "content"]
  | "read_file" => ["path"]
  | "run_command" => ["command"]
  | "calculate" => ["expression"]
  | _ => []

/-- Python `v == s` against a string literal: true exactly when `v` is an
equal string (JSON-derived values carry no custom `__eq__`). -/
def pyEqStr (v : PyVal) (s : String) : Bool :=
  match v with
  | PyVal.str t => t == s
  | _ => false

/-- Body of `_execute_tool_call` (inside the outer `try`).  `pyEval` models
the builtin `eval`; the source wraps it in a bare `except`, so both of its
outcomes are handled locally. -/
def execBody (pyEval : PyVal → Except String PyVal) (tool_name : PyVal)
    (arguments : PyVal) : Except String ToolCallResult :=
  if pyEqStr tool_name "write_file" then do
    let path ← pyGetStrD arguments "path"
    let content ← pyGetStrD arguments "content"
    if !truthy path || !truthy content then
      Except.ok ⟨tool_name, arguments, false, Option.some "Missing path or content"⟩
    else
      Except.ok ⟨tool_name, arguments, true, Option.none⟩
  else if pyEqStr tool_name "read_file" then do
    let path ← pyGetStrD arguments "path"
    if !truthy path then
      Except.ok ⟨tool_name, arguments, false, Option.some "Missing path"⟩
    else
      Except.ok ⟨tool_name, arguments, true, Option.none⟩
  else if pyEqStr tool_name "run_command" then do
    let command ← pyGetStrD arguments "command"
    if !truthy command then
      Except.ok ⟨tool_name, arguments, false, Option.some "Missing command"⟩
    else
      Except.ok ⟨tool_name, arguments, true, Option.none⟩
  else if pyEqStr tool_name "calculate" then do
    let expression ← pyGetStrD arguments "expression"
    if !truthy expression then
      Except.ok ⟨tool_name, arguments, false, Option.some "Missing expression"⟩
    else
      match pyEval expression with
      | Except.ok _ => Except.ok ⟨tool_name, arguments, true, Option.none⟩
      | Except.error _ =>
          Except.ok ⟨tool_name, arguments, false, Option.some "Invalid expression"⟩
  else
    Except.ok ⟨tool_name, arguments, false,
      Option.some ("Unknown tool: " ++ pyToStr tool_name)⟩

/-- `_execute_tool_call`: the outer `try/except Exception` turns any
exception escaping the body into a failure result carrying `str(e)`. -/
def execute_tool_call (pyEval : PyVal → Except String PyVal) (tool_name : PyVal)
    (arguments : PyVal) : ToolCallResult :=
  match execBody pyEval tool_name arguments with
  | Except.ok r => r
  | Except.error e => ⟨tool_name, arguments, false, Option.some e⟩

/-- Python whitespace as stripped by `str.strip()` (ASCII subset). -/
def isPySpace (c : Char) : Bool :=
  c = ' ' || c = '\t' || c = '\n' || c = '\r' || c = '\x0b' || c = '\x0c'

/-- Model of Python `line.strip()` on a line's characters. -/
def pyStrip (cs : List Char) : List Char :=
  ((cs.dropWhile isPySpace).reverse.dropWhile isPySpace).reverse

/-- Model of Python `content.split('\n')` on the content's characters. -/
def splitNl : List Char → List Char → List (List Char)
  | [], cur => [cur.reverse]
  | '\n' :: rest, cur => cur.reverse :: splitNl rest []
  | c :: rest, cur => splitNl rest (c :: cur)

/-- Model of Python `'\n'.join(lines)`. -/
def joinNl : List (List Char) → List Char
  | [] => []
  | [l] => l
  | l :: rest => l ++ '\n' :: joinNl rest

/-- Fenced-block scan of `_parse_tool_calls_from_response` (method 2 of the
source): line-by-line state machine over stripped lines; a line equal to
the JSON fence opener starts (and resets) capture, a bare closing fence
while capturing decodes the captured lines, keeping the result only when it
is an object with both a `name` and an `arguments` field; a decode error is
swallowed (`except json.JSONDecodeError: pass`). -/
def scanFenced (jsonLoads : String → Except String PyVal) :
    List (List Char) → Bool → List (List Char) → List (PyVal × PyVal) →
    List (PyVal × PyVal)
  | [], _, _, acc => acc
  | l :: ls, in_code_block, json_lines, acc =>
    let line := pyStrip l
    if line = "```json".data then
      scanFenced jsonLoads ls true [] acc
    else if line = "```".data && in_code_block then
      let json_str := String.mk (joinNl json_lines)
      let acc1 :=
        match jsonLoads json_str with
        | Except.ok (PyVal.dict kvs) =>
            if hasKey kvs "name" && hasKey kvs "arguments" then
              acc ++ [(dictGet kvs "name", dictGet kvs "arguments")]
            else acc
        | _ => acc
      scanFenced jsonLoads ls false json_lines acc1
    else if in_code_block then
      scanFenced jsonLoads ls in_code_block (json_lines ++ [line]) acc
    else
      scanFenced jsonLoads ls in_code_block json_lines acc

/-- `_parse_tool_calls_from_response`: fenced-block scan first; only when it
produced nothing, attempt to decode the entire content as a single JSON
object with the same required fields (method 3), again swallowing decode
errors. -/
def parse_tool_calls (jsonLoads : String → Except String PyVal)
    (content : String) : List (PyVal × PyVal) :=
  let tool_calls := scanFenced jsonLoads (splitNl content.data []) false [] []
  if tool_calls.isEmpty then
    match jsonLoads content with
    | Except.ok (PyVal.dict kvs) =>
        if hasKey kvs "name" && hasKey kvs "arguments" then
          [(dictGet kvs "name", dictGet kvs "arguments")]
        else []
    | _ => []
  else tool_calls

/-- Python `tool in called_tools` where `called_tools` holds decoded values. -/
def isCalled (called_tools : List PyVal) (tool : String) : Bool :=
  called_tools.any (fun v => pyEqStr v tool)

/-- `_evaluate_test_result` (the `content` argument is accepted and unused,
as in the source). -/
def evaluate_test_result (expected_tools : List String)
    (tool_calls : List ToolCallResult) (_content : String) : TestStatus :=
  let called_tools := tool_calls.map (fun tc => tc.tool_name)
  if expected_tools.isEmpty then
    if tool_calls.isEmpty then TestStatus.FAIL else TestStatus.PASS
  else
    let missing_tools := expected_tools.filter (fun tool => !isCalled called_tools tool)
    if !missing_tools.isEmpty then
      (if tool_calls.isEmpty then TestStatus.FAIL else TestStatus.PARTIAL)
    else if !(tool_calls.filter (fun tc => !tc.success)).isEmpty then
      TestStatus.PARTIAL
    else TestStatus.PASS

/-- One API-native tool call of a chat response: the values read out by
`tool_call.get("function", {}).get("name", "")` and `...get("arguments", {})`. -/
structure ApiToolCall where
  name : PyVal
  arguments : PyVal

/-- A successfully transported chat response, reduced to the fields the
driver reads: `message.content` and `message.tool_calls`.  A transport
failure, a non-200 status, or a falsy response body is `Option.none` at the
`_send_chat_request` boundary. -/
structure ChatResponse where
  content : String
  tool_calls : List ApiToolCall

/-- Argument normalisation for API-native calls: an encoded string is
decoded with `json.loads`; on decode failure the empty object is
substituted; non-strings pass through. -/
def decodeArgs (jsonLoads : String → Except String PyVal) (v : PyVal) : PyVal :=
  match v with
  | PyVal.str s =>
      match jsonLoads s with
      | Except.ok parsed => parsed
      | Except.error _ => PyVal.dict []
  | other => other

/-- Synthetic tool-result turn appended after each executed call. -/
def toolMsg (tool_name : PyVal) (r : ToolCallResult) : Message :=
  ⟨"tool",
    if r.success then "Tool " ++ pyToStr tool_name ++ " executed successfully"
    else "Tool " ++ pyToStr tool_name ++ " failed: " ++
      (match r.error with | Option.some e => e | Option.none => "None")⟩

/-- Execute a batch of (name, arguments) pairs in order, producing the
`ToolCallResult` list and the synthetic tool-result turns. -/
def execCalls (pyEval : PyVal → Except String PyVal) :
    List (PyVal × PyVal) → List ToolCallResult × List Message
  | [] => ([], [])
  | (tool_name, arguments) :: rest =>
    let r := execute_tool_call pyEval tool_name arguments
    let (rs, ms) := execCalls pyEval rest
    (r :: rs, toolMsg tool_name r :: ms)

/-- Outcome of the bounded conversation loop of `run_test`, with the number
of request/response exchanges performed. -/
inductive LoopEnd where
  | apiFail : List ToolCallResult → Nat → LoopEnd
  | finished : List ToolCallResult → String → Nat → LoopEnd

/-- Exchanges performed by a loop outcome. -/
def LoopEnd.requests : LoopEnd → Nat
  | LoopEnd.apiFail _ n => n
  | LoopEnd.finished _ _ n => n

/-- The `while iteration < max_iterations` loop of `run_test`, with the
endpoint modelled as a function from the transcript to an optional
response.  `fuel` is the remaining iterations, `prev` the last value of the
Python `content` variable (read after the loop). -/
def runLoop (pyEval : PyVal → Except String PyVal)
    (jsonLoads : String → Except String PyVal)
    (endpoint : List Message → Option ChatResponse) :
    Nat → List Message → List ToolCallResult → Nat → String → LoopEnd
  | 0, _, acc, reqs, prev => LoopEnd.finished acc prev reqs
  | Nat.succ fuel, messages, acc, reqs, _ =>
    match endpoint messages with
    | Option.none => LoopEnd.apiFail acc (reqs + 1)
    | Option.some resp =>
      let messages1 := messages ++ [⟨"assistant", resp.content⟩]
      if !resp.tool_calls.isEmpty then
        let step := execCalls pyEval
          (resp.tool_calls.map (fun c => (c.name, decodeArgs jsonLoads c.arguments)))
        runLoop pyEval jsonLoads endpoint fuel (messages1 ++ step.2)
          (acc ++ step.1) (reqs + 1) resp.content
      else if resp.content != "" then
        let parsed_calls := parse_tool_calls jsonLoads resp.content
        if !parsed_calls.isEmpty then
          let step := execCalls pyEval parsed_calls
          runLoop pyEval jsonLoads endpoint fuel (messages1 ++ step.2)
            (acc ++ step.1) (reqs + 1) resp.content
        else LoopEnd.finished acc resp.content (reqs + 1)
      else LoopEnd.finished acc resp.content (reqs + 1)

/-- Initial transcript of a test case. -/
def initMsgs (tc : TestCase) : List Message :=
  [⟨"system", tc.system_prompt⟩, ⟨"user", tc.user_message⟩]

/-- `max_iterations` of `run_test`. -/
def max_iterations : Nat := 10

/-- `run_test`: runs the bounded loop and evaluates, also returning the
number of request/response exchanges performed (ghost accounting for the
round-trip bound). -/
def run_test (pyEval : PyVal → Except String PyVal)
    (jsonLoads : String → Except String PyVal)
    (endpoint : List Message → Option ChatResponse)
    (tc : TestCase) : TestResult × Nat :=
  match runLoop pyEval jsonLoads endpoint max_iterations (initMsgs tc) [] 0 "" with
  | LoopEnd.apiFail acc reqs =>
      (⟨tc.name, TestStatus.FAIL, acc, "", "Failed to get response from API"⟩, reqs)
  | LoopEnd.finished acc content reqs =>
      (⟨tc.name, evaluate_test_result tc.expected_tools acc content, acc, content, ""⟩, reqs)

/-- The `no_tools_needed` entry of `get_test_cases`. -/
def no_tools_needed_case : TestCase :=
  ⟨"no_tools_needed",
   "Test response when no tools are needed",
   "You are a helpful assistant that can use tools to complete tasks.",
   "What is the capital of France?",
   [],
   "Should respond directly without using tools",
   3600⟩

/-- The fixed catalog returned by `get_test_cases` (only the fields used by
the claims are exercised; all are transcribed). -/
def get_test_cases : List TestCase :=
  [⟨"basic_tool_call",
    "Test basic tool call recognition and execution",
    "You are a helpful assistant that can use tools to complete tasks.",
    "Calculate 2 + 2",
    ["calculate"],
    "Should call calculate tool with expression \x272 + 2\x27",
    3600⟩,
   ⟨"sequential_tool_calls",
    "Test multiple tool calls in sequence",
    "You are a helpful assistant that can use tools to complete tasks.",
    "Write \x27Hello World\x27 to a file called hello.txt, then read it back",
    ["write_file", "read_file"],
    "Should call write_file then read_file",
    3600⟩,
   ⟨"complex_workflow",
    "Test complex multi-step workflow with conditional logic",
    "You are a helpful assistant that can use tools to complete tasks.",
    "Create a Python script that prints \x27Hello World\x27, save it as hello.py, then run it",
    ["write_file", "run_command"],
    "Should write Python file and execute it",
    3600⟩,
   ⟨"error_handling",
    "Test how the LLM handles tool call errors",
    "You are a helpful assistant that can use tools to complete tasks.",
    "Read a file that doesn\x27t exist: /nonexistent/file.txt",
    ["read_file"],
    "Should attempt to read the file and handle the error gracefully",
    3600⟩,
   ⟨"parameter_validation",
    "Test tool call parameter validation",
    "You are a helpful assistant that can use tools to complete tasks.",
    "Calculate the result of an invalid expression: \x27not_a_number + 5\x27",
    ["calculate"],
    "Should call calculate and handle invalid expression",
    3600⟩,
   no_tools_needed_case]

/-- How one invocation of `main` ends: the suite ran to completion with the
given verdicts, or it was interrupted (`KeyboardInterrupt`), or some other
exception escaped. -/
inductive RunEnd where
  | completed : List TestStatus → RunEnd
  | interrupted : RunEnd
  | fault : RunEnd

/-- Verdicts counted as passed by `main`. -/
def passedCount (statuses : List TestStatus) : Nat :=
  (statuses.filter (fun s => s == TestStatus.PASS)).length

/-- The `sys.exit` code selected by `main`.  The source compares
`passed >= total * 0.8` in double precision; it is modelled by the exact
rational comparison `5 * passed ≥ 4 * total`, with which it agrees on the
fixed six-test suite (and at every integer point where `total * 0.8` rounds
exactly). -/
def mainExitCode : RunEnd → Nat
  | RunEnd.completed statuses =>
      let passed := passedCount statuses
      let total := statuses.length
      if passed = total then 0
      else if 4 * total ≤ 5 * passed then 1
      else 2
  | RunEnd.interrupted => 3
  | RunEnd.fault => 4

/-- Modelled from the spec: character-level necessary condition for the
spec's restricted arithmetic-expression language (numbers and the operators
`+ - * / ( )`); any expression containing another character is outside the
language under every reading of the spec. -/
def specArithCharsOnly (s : String) : Bool :=
  s.data.all (fun c =>
    c.isDigit || c = '+' || c = '-' || c = '*' || c = '/' ||
    c = '(' || c = ')' || c = ' ' || c = '.')

/-- Model of the builtin `eval` at the single expression `'abc'` (a Python
string literal): it evaluates, without error, to the string `abc`.  Every
other input is mapped to an error; only the behaviour at this input is used. -/
def pyEvalStrLit : PyVal → Except String PyVal
  | PyVal.str "\x27abc\x27" => Except.ok (PyVal.str "abc")
  | _ => Except.error "SyntaxError"

/-- A decoder on which every decode attempt fails, modelling content whose
every fragment is malformed JSON. -/
def jsonLoadsFailAll : String → Except String PyVal :=
  fun _ => Except.error "JSONDecodeError"

/-- The bare top-level tool-call object of the spec, as decoded JSON. -/
def bareCallObj : PyVal :=
  PyVal.dict [("name", PyVal.str "calculate"),
              ("arguments", PyVal.dict [("expression", PyVal.str "2+2")])]

/-- The bare top-level tool-call text of the spec, with no fencing. -/
def bareCallStr : String :=
  "\x7b\"name\":\"calculate\",\"arguments\":\x7b\"expression\":\"2+2\"\x7d\x7d"

/-- A decoder that decodes exactly the bare tool-call text (as `json.loads`
does) and fails elsewhere. -/
def jsonLoadsBare : String → Except String PyVal :=
  fun s => if s = bareCallStr then Except.ok bareCallObj else Except.error "JSONDecodeError"

/-- A decoder that decodes exactly the payload `x` of the fenced-block
witness and fails elsewhere. -/
def jsonLoadsFence : String → Except String PyVal :=
  fun s => if s = "x" then Except.ok bareCallObj else Except.error "JSONDecodeError"

/-- An evaluator model that fails on every expression (its value is
irrelevant to the theorems that use it). -/
def pyEvalFailAll : PyVal → Except String PyVal :=
  fun _ => Except.error "SyntaxError"

/-- Witness endpoint: answers every transcript with plain text and no
API-native calls. -/
def endpointPlainText : List Message → Option ChatResponse :=
  fun _ => Option.some ⟨"hi", []⟩

/-- Witness endpoint: fails on the very first exchange. -/
def endpointAlwaysFail : List Message → Option ChatResponse :=
  fun _ => Option.none

/-- Witness endpoint: the first exchange (a two-message transcript) returns
one API-native `read_file` call; every later exchange fails at transport. -/
def endpointCallThenFail : List Message → Option ChatResponse :=
  fun messages =>
    if messages.length = 2 then
      Option.some ⟨"", [⟨PyVal.str "read_file", PyVal.dict [("path", PyVal.str "/tmp/a")]⟩]⟩
    else Option.none

/-- C1: the Result Evaluator, given the expected tool names and the ordered
list of ToolCallResult values, returns exactly the verdicts of the spec's
decision table for every input: empty expected with no calls is FAIL; empty
expected with at least one call is PASS; non-empty expected with some
expected tool never called is PARTIAL when at least one call was made and
FAIL otherwise; non-empty expected with every expected tool called is
PARTIAL when any call failed and PASS otherwise. -/
theorem c1_evaluator_decision_table (expected_tools : List String)
    (tool_calls : List ToolCallResult) (content : String) :
    evaluate_test_result expected_tools tool_calls content =
      if expected_tools = [] then
        (if tool_calls.isEmpty then TestStatus.FAIL else TestStatus.PASS)
      else if ∀ tool ∈ expected_tools,
          isCalled (tool_calls.map (fun tc => tc.tool_name)) tool = true then
        (if ∀ tc ∈ tool_calls, tc.success = true then TestStatus.PASS
         else TestStatus.PARTIAL)
      else
        (if tool_calls.isEmpty then TestStatus.FAIL else TestStatus.PARTIAL) := by
  simp only [evaluate_test_result]
  by_cases hexp : expected_tools = []
  · rw [if_pos hexp, hexp]
    cases hc : tool_calls.isEmpty <;> simp [hc]
  · rw [if_neg hexp]
    have hexp2 : expected_tools.isEmpty = false := by
      simp [List.isEmpty_iff, hexp]
    simp only [hexp2, Bool.not_false, if_true, if_false]
    by_cases hall : ∀ tool ∈ expected_tools,
        isCalled (tool_calls.map (fun tc => tc.tool_name)) tool = true
    · have hmiss : (expected_tools.filter
          (fun tool => !isCalled (tool_calls.map (fun tc => tc.tool_name)) tool)).isEmpty = true := by
        rw [List.isEmpty_iff, List.filter_eq_nil_iff]
        intro a ha
        simp [hall a ha]
      rw [if_pos hall]
      simp only [hmiss, Bool.not_true, Bool.false_eq_true, if_false]
      by_cases hsucc : ∀ tc ∈ tool_calls, tc.success = true
      · have hfail : (tool_calls.filter (fun tc => !tc.success)).isEmpty = true := by
          rw [List.isEmpty_iff, List.filter_eq_nil_iff]
          intro a ha
          simp [hsucc a ha]
        rw [if_pos hsucc]
        simp [hfail]
      · have hfail : (tool_calls.filter (fun tc => !tc.success)).isEmpty = false := by
          rw [Bool.eq_false_iff]
          intro h
          rw [List.isEmpty_iff, List.filter_eq_nil_iff] at h
          apply hsucc
          intro tc htc
          have := h tc htc
          simpa using this
        rw [if_neg hsucc]
        simp [hfail]
    · have hmiss : (expected_tools.filter
          (fun tool => !isCalled (tool_calls.map (fun tc => tc.tool_name)) tool)).isEmpty = false := by
        rw [Bool.eq_false_iff]
        intro h
        rw [List.isEmpty_iff, List.filter_eq_nil_iff] at h
        apply hall
        intro t ht
        have := h t ht
        simpa using this
      rw [if_neg hall]
      simp only [hmiss, Bool.not_false, if_true]
      cases hc : tool_calls.isEmpty <;> simp [hc]

/-- C3 (code bug): for the harness's own `no_tools_needed` test case, whose
expected tool set is empty, a model turn with plain text content and zero
ToolCallResult entries is scored FAIL by the Result Evaluator, although the
case's declared success criterion ("Should respond directly without using
tools") and the spec's end-to-end scenario require PASS. -/
theorem c3_no_tools_zero_calls_fails :
    evaluate_test_result no_tools_needed_case.expected_tools []
      "The capital of France is Paris." = TestStatus.FAIL := rfl

/-- C8: the Tool Executor is a total function returning a ToolCallResult for
every (name, arguments) pair (every modelled exception is caught at its
outer boundary); when the name is not one of the four built-in tools, it
returns a failure result whose error message identifies the unknown tool. -/
theorem c8_unknown_tool_failure (pyEval : PyVal → Except String PyVal)
    (name : String) (arguments : PyVal)
    (h : name ∉ ["write_file", "read_file", "run_command", "calculate"]) :
    execute_tool_call pyEval (PyVal.str name) arguments =
      ⟨PyVal.str name, arguments, false, Option.some ("Unknown tool: " ++ name)⟩ := by
  simp only [List.mem_cons, List.mem_singleton, not_or] at h
  obtain ⟨h1, h2, h3, h4⟩ := h
  simp [execute_tool_call, execBody, pyEqStr, pyToStr, h1, h2, h3, h4]

/-- Witness for `c8_unknown_tool_failure` at the unknown tool `frobnicate`. -/
theorem c8_unknown_tool_failure_witness :
    execute_tool_call pyEvalFailAll (PyVal.str "frobnicate") (PyVal.dict []) =
      ⟨PyVal.str "frobnicate", PyVal.dict [], false,
        Option.some "Unknown tool: frobnicate"⟩ :=
  c8_unknown_tool_failure pyEvalFailAll "frobnicate" (PyVal.dict []) (by decide)

theorem truthyGetD_some (kvs : List (String × PyVal)) (k : String)
    (h : truthy ((lookupFirst kvs k).getD (PyVal.str "")) = true) :
    ∃ v, lookupFirst kvs k = Option.some v ∧ truthy v = true := by
  cases hl : lookupFirst kvs k with
  | none => rw [hl] at h; simp [truthy] at h
  | some v => rw [hl] at h; exact ⟨v, rfl, h⟩

theorem write_file_success_truthy (pyEval : PyVal → Except String PyVal)
    (kvs : List (String × PyVal))
    (h : (execute_tool_call pyEval (PyVal.str "write_file") (PyVal.dict kvs)).success = true) :
    truthy ((lookupFirst kvs "path").getD (PyVal.str "")) = true ∧
    truthy ((lookupFirst kvs "content").getD (PyVal.str "")) = true := by
  by_cases hp : truthy ((lookupFirst kvs "path").getD (PyVal.str "")) = true <;>
    by_cases hc : truthy ((lookupFirst kvs "content").getD (PyVal.str "")) = true
  · exact ⟨hp, hc⟩
  all_goals
    exfalso
    simp only [Bool.not_eq_true] at hp hc
    simp [execute_tool_call, execBody, pyEqStr, pyGetStrD, bind, Except.bind, hp, hc] at h

theorem read_file_success_truthy (pyEval : PyVal → Except String PyVal)
    (kvs : List (String × PyVal))
    (h : (execute_tool_call pyEval (PyVal.str "read_file") (PyVal.dict kvs)).success = true) :
    truthy ((lookupFirst kvs "path").getD (PyVal.str "")) = true := by
  by_cases hp : truthy ((lookupFirst kvs "path").getD (PyVal.str "")) = true
  · exact hp
  · exfalso
    simp only [Bool.not_eq_true] at hp
    simp [execute_tool_call, execBody, pyEqStr, pyGetStrD, bind, Except.bind, hp] at h

theorem run_command_success_truthy (pyEval : PyVal → Except String PyVal)
    (kvs : List (String × PyVal))
    (h : (execute_tool_call pyEval (PyVal.str "run_command") (PyVal.dict kvs)).success = true) :
    truthy ((lookupFirst kvs "command").getD (PyVal.str "")) = true := by
  by_cases hc : truthy ((lookupFirst kvs "command").getD (PyVal.str "")) = true
  · exact hc
  · exfalso
    simp only [Bool.not_eq_true] at hc
    simp [execute_tool_call, execBody, pyEqStr, pyGetStrD, bind, Except.bind, hc] at h

theorem calculate_success_truthy (pyEval : PyVal → Except String PyVal)
    (kvs : List (String × PyVal))
    (h : (execute_tool_call pyEval (PyVal.str "calculate") (PyVal.dict kvs)).success = true) :
    truthy ((lookupFirst kvs "expression").getD (PyVal.str "")) = true := by
  by_cases he : truthy ((lookupFirst kvs "expression").getD (PyVal.str "")) = true
  · exact he
  · exfalso
    simp only [Bool.not_eq_true] at he
    simp [execute_tool_call, execBody, pyEqStr, pyGetStrD, bind, Except.bind, he] at h

/-- C10: for every built-in tool, a required argument bound to the empty
string is treated exactly like an absent argument: the call fails with the
same `Missing ...` error in both shapes; and a call succeeds only when
every required argument is present with a truthy (non-empty) value. -/
theorem c10_empty_string_like_absent (pyEval : PyVal → Except String PyVal) :
    (∀ c : PyVal,
      (execute_tool_call pyEval (PyVal.str "write_file")
          (PyVal.dict [("path", PyVal.str ""), ("content", c)])).success = false ∧
      (execute_tool_call pyEval (PyVal.str "write_file")
          (PyVal.dict [("path", PyVal.str ""), ("content", c)])).error =
        Option.some "Missing path or content" ∧
      (execute_tool_call pyEval (PyVal.str "write_file")
          (PyVal.dict [("content", c)])).success = false ∧
      (execute_tool_call pyEval (PyVal.str "write_file")
          (PyVal.dict [("content", c)])).error = Option.some "Missing path or content") ∧
    (∀ p : PyVal,
      (execute_tool_call pyEval (PyVal.str "write_file")
          (PyVal.dict [("path", p), ("content", PyVal.str "")])).success = false ∧
      (execute_tool_call pyEval (PyVal.str "write_file")
          (PyVal.dict [("path", p), ("content", PyVal.str "")])).error =
        Option.some "Missing path or content" ∧
      (execute_tool_call pyEval (PyVal.str "write_file")
          (PyVal.dict [("path", p)])).success = false ∧
      (execute_tool_call pyEval (PyVal.str "write_file")
          (PyVal.dict [("path", p)])).error = Option.some "Missing path or content") ∧
    ((execute_tool_call pyEval (PyVal.str "read_file")
        (PyVal.dict [("path", PyVal.str "")])).success = false ∧
     (execute_tool_call pyEval (PyVal.str "read_file")
        (PyVal.dict [("path", PyVal.str "")])).error = Option.some "Missing path" ∧
     (execute_tool_call pyEval (PyVal.str "read_file") (PyVal.dict [])).success = false ∧
     (execute_tool_call pyEval (PyVal.str "read_file") (PyVal.dict [])).error =
       Option.some "Missing path") ∧
    ((execute_tool_call pyEval (PyVal.str "run_command")
        (PyVal.dict [("command", PyVal.str "")])).success = false ∧
     (execute_tool_call pyEval (PyVal.str "run_command")
        (PyVal.dict [("command", PyVal.str "")])).error = Option.some "Missing command" ∧
     (execute_tool_call pyEval (PyVal.str "run_command") (PyVal.dict [])).success = false ∧
     (execute_tool_call pyEval (PyVal.str "run_command") (PyVal.dict [])).error =
       Option.some "Missing command") ∧
    ((execute_tool_call pyEval (PyVal.str "calculate")
        (PyVal.dict [("expression", PyVal.str "")])).success = false ∧
     (execute_tool_call pyEval (PyVal.str "calculate")
        (PyVal.dict [("expression", PyVal.str "")])).error = Option.some "Missing expression" ∧
     (execute_tool_call pyEval (PyVal.str "calculate") (PyVal.dict [])).success = false ∧
     (execute_tool_call pyEval (PyVal.str "calculate") (PyVal.dict [])).error =
       Option.some "Missing expression") ∧
    (∀ (name : String) (kvs : List (String × PyVal)),
      name ∈ ["write_file", "read_file", "run_command", "calculate"] →
      (execute_tool_call pyEval (PyVal.str name) (PyVal.dict kvs)).success = true →
      ∀ k ∈ requiredParams name,
        ∃ v, lookupFirst kvs k = Option.some v ∧ truthy v = true) := by
  refine ⟨fun c => ⟨rfl, rfl, rfl, rfl⟩, fun p => ?_, ⟨rfl, rfl, rfl, rfl⟩,
    ⟨rfl, rfl, rfl, rfl⟩, ⟨rfl, rfl, rfl, rfl⟩, ?_⟩
  · cases hp : truthy p <;>
      simp [execute_tool_call, execBody, pyEqStr, pyGetStrD, bind, Except.bind,
        lookupFirst, hp, truthy]
  · intro name kvs hmem hsucc k hk
    simp only [List.mem_cons, List.mem_singleton, List.not_mem_nil, or_false] at hmem
    rcases hmem with rfl | rfl | rfl | rfl
    · simp only [requiredParams, List.mem_cons, List.mem_singleton, List.not_mem_nil,
        or_false] at hk
      rcases hk with rfl | rfl
      · exact truthyGetD_some kvs "path" (write_file_success_truthy pyEval kvs hsucc).1
      · exact truthyGetD_some kvs "content" (write_file_success_truthy pyEval kvs hsucc).2
    · simp only [requiredParams, List.mem_cons, List.mem_singleton, List.not_mem_nil,
        or_false] at hk
      subst hk
      exact truthyGetD_some kvs "path" (read_file_success_truthy pyEval kvs hsucc)
    · simp only [requiredParams, List.mem_cons, List.mem_singleton, List.not_mem_nil,
        or_false] at hk
      subst hk
      exact truthyGetD_some kvs "command" (run_command_success_truthy pyEval kvs hsucc)
    · simp only [requiredParams, List.mem_cons, List.mem_singleton, List.not_mem_nil,
        or_false] at hk
      subst hk
      exact truthyGetD_some kvs "expression" (calculate_success_truthy pyEval kvs hsucc)

/-- Witness for `c10_empty_string_like_absent`: a successful `read_file`
call indeed has a present, non-empty `path`. -/
theorem c10_empty_string_like_absent_witness :
    ∃ v, lookupFirst [("path", PyVal.str "/tmp/a")] "path" = Option.some v ∧
      truthy v = true :=
  (c10_empty_string_like_absent pyEvalFailAll).2.2.2.2.2 "read_file"
    [("path", PyVal.str "/tmp/a")] (by decide) (by rfl) "path" (by decide)

/-- C5 counterexample: the expression consisting of the Python string
literal `'abc'` lies outside the spec's restricted arithmetic language
(it contains characters other than numbers, `+ - * / ( )`), yet the
`calculate` tool executed through the source's general `eval` returns a
SUCCESS ToolCallResult for it, not a failure. -/
theorem c5_restricted_eval_counterexample :
    specArithCharsOnly "\x27abc\x27" = false ∧
    (execute_tool_call pyEvalStrLit (PyVal.str "calculate")
        (PyVal.dict [("expression", PyVal.str "\x27abc\x27")])).success = true ∧
    (execute_tool_call pyEvalStrLit (PyVal.str "calculate")
        (PyVal.dict [("expression", PyVal.str "\x27abc\x27")])).error = Option.none :=
  ⟨rfl, rfl, rfl⟩

/-- C5 amended: the `calculate` tool evaluates a non-empty expression with
the host language's general `eval` (passed here as `pyEval`): when
evaluation raises, the call returns a failure ToolCallResult with error
`Invalid expression` (a validation failure, never a harness fault), and
when evaluation returns a value — whether or not the expression lies in the
restricted arithmetic language — the call returns success. -/
theorem c5_calculate_general_eval (pyEval : PyVal → Except String PyVal)
    (expression : PyVal) (h : truthy expression = true) :
    execute_tool_call pyEval (PyVal.str "calculate")
        (PyVal.dict [("expression", expression)]) =
      (match pyEval expression with
       | Except.ok _ =>
           ⟨PyVal.str "calculate", PyVal.dict [("expression", expression)],
            true, Option.none⟩
       | Except.error _ =>
           ⟨PyVal.str "calculate", PyVal.dict [("expression", expression)],
            false, Option.some "Invalid expression"⟩) := by
  cases hev : pyEval expression with
  | ok v =>
      simp [execute_tool_call, execBody, pyEqStr, pyGetStrD, bind, Except.bind,
        lookupFirst, h, hev]
  | error e =>
      simp [execute_tool_call, execBody, pyEqStr, pyGetStrD, bind, Except.bind,
        lookupFirst, h, hev]

/-- Helper: with a decoder that fails on every string, the fenced-block
scan never appends a call. -/
theorem scanFenced_all_error (jsonLoads : String → Except String PyVal)
    (hjl : ∀ s, ∃ e, jsonLoads s = Except.error e) :
    ∀ (lines : List (List Char)) (b : Bool) (js : List (List Char))
      (acc : List (PyVal × PyVal)),
    scanFenced jsonLoads lines b js acc = acc := by
  intro lines
  induction lines with
  | nil => intro b js acc; rfl
  | cons l ls ih =>
    intro b js acc
    rw [scanFenced]
    by_cases h1 : pyStrip l = "```json".data
    · rw [if_pos h1]
      exact ih true [] acc
    · rw [if_neg h1]
      by_cases h2 : (pyStrip l = "```".data && b) = true
      · rw [if_pos h2]
        obtain ⟨e, he⟩ := hjl (String.mk (joinNl js))
        simp only [he]
        exact ih false js acc
      · rw [if_neg h2]
        by_cases h3 : b = true
        · rw [if_pos h3]
          exact ih b (js ++ [pyStrip l]) acc
        · rw [if_neg h3]
          exact ih b js acc

/-- Witness for `c5_calculate_general_eval` at the string-literal
expression `'abc'`. -/
theorem c5_calculate_general_eval_witness :
    truthy (PyVal.str "\x27abc\x27") = true ∧
    execute_tool_call pyEvalStrLit (PyVal.str "calculate")
        (PyVal.dict [("expression", PyVal.str "\x27abc\x27")]) =
      ⟨PyVal.str "calculate", PyVal.dict [("expression", PyVal.str "\x27abc\x27")],
       true, Option.none⟩ :=
  ⟨rfl, (c5_calculate_general_eval pyEvalStrLit (PyVal.str "\x27abc\x27") rfl).trans rfl⟩

/-- C2: the Call Extractor is a total function from input strings to
(name, arguments) lists — every decode failure raised inside it is caught,
so it never propagates an exception — and on content whose every fragment
is malformed (a decoder that fails on every string, covering partial,
truncated, adversarial text and unterminated or ill-formed fenced blocks)
it returns the empty sequence. -/
theorem c2_extractor_never_raises (jsonLoads : String → Except String PyVal)
    (content : String) (hjl : ∀ s, ∃ e, jsonLoads s = Except.error e) :
    parse_tool_calls jsonLoads content = [] := by
  unfold parse_tool_calls
  rw [scanFenced_all_error jsonLoads hjl]
  obtain ⟨e, he⟩ := hjl content
  simp [he]

/-- Witness for `c2_extractor_never_raises` on an unterminated fenced block
with truncated JSON. -/
theorem c2_extractor_never_raises_witness :
    parse_tool_calls jsonLoadsFailAll "```json\n\x7b\"name\": \"calculate\"\ntruncated" = [] :=
  c2_extractor_never_raises jsonLoadsFailAll
    "```json\n\x7b\"name\": \"calculate\"\ntruncated"
    (fun _ => ⟨"JSONDecodeError", rfl⟩)

/-- C6: whenever the fenced-block strategy found at least one call, the
extractor's result is exactly that strategy's result (first successful
strategy wins, nothing merged, the whole-content decode never contributes);
and for the bare top-level object
`{"name":"calculate","arguments":{"expression":"2+2"}}` with no fencing
(under any decoder that decodes it as `json.loads` does) the extractor
returns exactly that one call. -/
theorem c6_bare_object_fallback (jsonLoads : String → Except String PyVal) :
    (∀ content : String,
      (scanFenced jsonLoads (splitNl content.data []) false [] []).isEmpty = false →
      parse_tool_calls jsonLoads content =
        scanFenced jsonLoads (splitNl content.data []) false [] []) ∧
    (jsonLoads bareCallStr = Except.ok bareCallObj →
      parse_tool_calls jsonLoads bareCallStr =
        [(PyVal.str "calculate", PyVal.dict [("expression", PyVal.str "2+2")])]) := by
  constructor
  · intro content h
    unfold parse_tool_calls
    simp [h]
  · intro h
    have hscan : scanFenced jsonLoads (splitNl bareCallStr.data []) false [] [] = [] := rfl
    unfold parse_tool_calls
    simp [hscan, h, hasKey, lookupFirst, dictGet, bareCallObj]

/-- Witness for `c6_bare_object_fallback`: a fenced block containing the
payload `x` wins, and the bare object decodes to one call. -/
theorem c6_bare_object_fallback_witness :
    parse_tool_calls jsonLoadsFence "```json\nx\n```" =
      scanFenced jsonLoadsFence (splitNl ("```json\nx\n```").data []) false [] [] ∧
    parse_tool_calls jsonLoadsBare bareCallStr =
      [(PyVal.str "calculate", PyVal.dict [("expression", PyVal.str "2+2")])] :=
  ⟨(c6_bare_object_fallback jsonLoadsFence).1 "```json\nx\n```" rfl,
   (c6_bare_object_fallback jsonLoadsBare).2 rfl⟩

/-- Helper: the loop makes at most `reqs + fuel` exchanges in total. -/
theorem runLoop_requests_le (pyEval : PyVal → Except String PyVal)
    (jsonLoads : String → Except String PyVal)
    (endpoint : List Message → Option ChatResponse) :
    ∀ (fuel : Nat) (messages : List Message) (acc : List ToolCallResult)
      (reqs : Nat) (prev : String),
    (runLoop pyEval jsonLoads endpoint fuel messages acc reqs prev).requests ≤
      reqs + fuel := by
  intro fuel
  induction fuel with
  | zero =>
      intro messages acc reqs prev
      simp [runLoop, LoopEnd.requests]
  | succ n ih =>
      intro messages acc reqs prev
      rw [runLoop]
      cases hep : endpoint messages with
      | none => simp [LoopEnd.requests]
      | some resp =>
          cases h1 : resp.tool_calls.isEmpty with
          | false =>
              simp only [h1, Bool.not_false, if_true]
              calc (runLoop pyEval jsonLoads endpoint n _ _ (reqs + 1) _).requests
                  ≤ (reqs + 1) + n := ih _ _ _ _
                _ ≤ reqs + (n + 1) := by omega
          | true =>
              simp only [h1, Bool.not_true, Bool.false_eq_true, if_false]
              cases h2 : (resp.content != "") with
              | false =>
                  simp only [h2, Bool.false_eq_true, if_false, LoopEnd.requests]
                  omega
              | true =>
                  simp only [h2, if_true]
                  cases h3 : (parse_tool_calls jsonLoads resp.content).isEmpty with
                  | false =>
                      simp only [h3, Bool.not_false, if_true]
                      calc (runLoop pyEval jsonLoads endpoint n _ _ (reqs + 1) _).requests
                          ≤ (reqs + 1) + n := ih _ _ _ _
                        _ ≤ reqs + (n + 1) := by omega
                  | true =>
                      simp only [h3, Bool.not_true, Bool.false_eq_true, if_false,
                        LoopEnd.requests]
                      omega

/-- Helper: the exchange count returned by `run_test` is the loop's. -/
theorem run_test_requests (pyEval : PyVal → Except String PyVal)
    (jsonLoads : String → Except String PyVal)
    (endpoint : List Message → Option ChatResponse) (tc : TestCase) :
    (run_test pyEval jsonLoads endpoint tc).2 =
      (runLoop pyEval jsonLoads endpoint max_iterations (initMsgs tc) [] 0 "").requests := by
  unfold run_test
  cases h : runLoop pyEval jsonLoads endpoint max_iterations (initMsgs tc) [] 0 "" <;>
    simp [LoopEnd.requests]

/-- C4: for every test case, endpoint behaviour, decoder and evaluator, the
conversation loop performs at most the configured round-trip cap of 10
request/response exchanges — even when every turn yields tool calls — and
whenever the loop ends without a transport failure (by break or by reaching
the cap) the collected calls are still evaluated through the decision
table, with no penalty from the cap itself. -/
theorem c4_round_trip_cap (pyEval : PyVal → Except String PyVal)
    (jsonLoads : String → Except String PyVal)
    (endpoint : List Message → Option ChatResponse) (tc : TestCase) :
    (run_test pyEval jsonLoads endpoint tc).2 ≤ max_iterations ∧
    (∀ (acc : List ToolCallResult) (content : String) (reqs : Nat),
      runLoop pyEval jsonLoads endpoint max_iterations (initMsgs tc) [] 0 "" =
        LoopEnd.finished acc content reqs →
      (run_test pyEval jsonLoads endpoint tc).1.result =
        evaluate_test_result tc.expected_tools acc content ∧
      (run_test pyEval jsonLoads endpoint tc).1.tool_calls = acc) := by
  constructor
  · rw [run_test_requests]
    have := runLoop_requests_le pyEval jsonLoads endpoint max_iterations
      (initMsgs tc) [] 0 ""
    omega
  · intro acc content reqs h
    unfold run_test
    rw [h]
    exact ⟨rfl, rfl⟩

/-- Witness for `c4_round_trip_cap`: a plain-text endpoint finishes in one
round trip and is evaluated normally. -/
theorem c4_round_trip_cap_witness :
    (run_test pyEvalFailAll jsonLoadsFailAll endpointPlainText no_tools_needed_case).2 ≤
      max_iterations ∧
    (run_test pyEvalFailAll jsonLoadsFailAll endpointPlainText no_tools_needed_case).1.result =
      evaluate_test_result no_tools_needed_case.expected_tools [] "hi" ∧
    (run_test pyEvalFailAll jsonLoadsFailAll endpointPlainText no_tools_needed_case).1.tool_calls = [] :=
  ⟨(c4_round_trip_cap pyEvalFailAll jsonLoadsFailAll endpointPlainText no_tools_needed_case).1,
   (c4_round_trip_cap pyEvalFailAll jsonLoadsFailAll endpointPlainText no_tools_needed_case).2
     [] "hi" 1 rfl⟩

/-- C7: a transport failure in any round-trip ends the test immediately:
the very iteration whose exchange fails returns with exactly one more
request (no retry, no further round-trips), and `run_test` then yields
verdict FAIL with the diagnostic note `Failed to get response from API`,
keeping the ToolCallResult entries collected before the failure. -/
theorem c7_transport_failure (pyEval : PyVal → Except String PyVal)
    (jsonLoads : String → Except String PyVal)
    (endpoint : List Message → Option ChatResponse) (tc : TestCase) :
    (∀ (messages : List Message) (acc : List ToolCallResult) (reqs : Nat)
       (prev : String) (fuel : Nat),
      endpoint messages = Option.none →
      runLoop pyEval jsonLoads endpoint (fuel + 1) messages acc reqs prev =
        LoopEnd.apiFail acc (reqs + 1)) ∧
    (∀ (acc : List ToolCallResult) (reqs : Nat),
      runLoop pyEval jsonLoads endpoint max_iterations (initMsgs tc) [] 0 "" =
        LoopEnd.apiFail acc reqs →
      (run_test pyEval jsonLoads endpoint tc).1 =
        ⟨tc.name, TestStatus.FAIL, acc, "", "Failed to get response from API"⟩ ∧
      (run_test pyEval jsonLoads endpoint tc).2 = reqs ∧
      reqs ≤ max_iterations) := by
  constructor
  · intro messages acc reqs prev fuel h
    rw [runLoop, h]
  · intro acc reqs h
    refine ⟨?_, ?_, ?_⟩
    · unfold run_test
      rw [h]
    · unfold run_test
      rw [h]
    · have h1 := runLoop_requests_le pyEval jsonLoads endpoint max_iterations
        (initMsgs tc) [] 0 ""
      rw [h] at h1
      simpa [LoopEnd.requests] using h1

/-- Witness for `c7_transport_failure`: one successful round trip carrying
a `read_file` call, then a transport failure on the second. -/
theorem c7_transport_failure_witness :
    (run_test pyEvalFailAll jsonLoadsFailAll endpointCallThenFail no_tools_needed_case).1 =
      ⟨"no_tools_needed", TestStatus.FAIL,
       [⟨PyVal.str "read_file", PyVal.dict [("path", PyVal.str "/tmp/a")],
         true, Option.none⟩],
       "", "Failed to get response from API"⟩ ∧
    (run_test pyEvalFailAll jsonLoadsFailAll endpointCallThenFail no_tools_needed_case).2 = 2 ∧
    2 ≤ max_iterations :=
  (c7_transport_failure pyEvalFailAll jsonLoadsFailAll endpointCallThenFail
    no_tools_needed_case).2
    [⟨PyVal.str "read_file", PyVal.dict [("path", PyVal.str "/tmp/a")],
      true, Option.none⟩] 2 rfl

/-- Helper: every verdict counts as passed exactly when all are PASS. -/
theorem passedCount_eq_length_iff (statuses : List TestStatus) :
    passedCount statuses = statuses.length ↔ ∀ s ∈ statuses, s = TestStatus.PASS := by
  unfold passedCount
  constructor
  · intro h s hs
    have hsub : (statuses.filter (fun s => s == TestStatus.PASS)).Sublist statuses :=
      List.filter_sublist statuses
    have := hsub.eq_of_length h
    have hall := List.filter_eq_self.mp this
    have := hall s hs
    simpa using this
  · intro h
    have : statuses.filter (fun s => s == TestStatus.PASS) = statuses :=
      List.filter_eq_self.mpr (fun s hs => by simp [h s hs])
    rw [this]

/-- Helper: the passed count never exceeds the total. -/
theorem passedCount_le_length (statuses : List TestStatus) :
    passedCount statuses ≤ statuses.length :=
  List.length_filter_le _ _

/-- C9: the process exit code is a deterministic function of the verdict
counts: 0 exactly when every test case is PASS; 1 exactly when not all
passed but the pass rate is at least 80 percent (the exact rational form of
the source's `passed >= total * 0.8`); 2 exactly when the pass rate is
below 80 percent; 3 on user-initiated interrupt; 4 on any other unhandled
top-level fault. -/
theorem c9_exit_codes (statuses : List TestStatus) :
    (mainExitCode (RunEnd.completed statuses) = 0 ↔
      ∀ s ∈ statuses, s = TestStatus.PASS) ∧
    (mainExitCode (RunEnd.completed statuses) = 1 ↔
      (¬ ∀ s ∈ statuses, s = TestStatus.PASS) ∧
      4 * statuses.length ≤ 5 * passedCount statuses) ∧
    (mainExitCode (RunEnd.completed statuses) = 2 ↔
      5 * passedCount statuses < 4 * statuses.length) ∧
    mainExitCode RunEnd.interrupted = 3 ∧
    mainExitCode RunEnd.fault = 4 := by
  have hle := passedCount_le_length statuses
  have hiff := passedCount_eq_length_iff statuses
  simp only [mainExitCode]
  by_cases heq : passedCount statuses = statuses.length
  · rw [if_pos heq]
    exact ⟨⟨fun _ => hiff.mp heq, fun _ => rfl⟩,
      iff_of_false (by decide) (fun h => h.1 (hiff.mp heq)),
      iff_of_false (by decide) (by omega),
      trivial, trivial⟩
  · rw [if_neg heq]
    by_cases hth : 4 * statuses.length ≤ 5 * passedCount statuses
    · rw [if_pos hth]
      exact ⟨iff_of_false (by decide) (fun hall => heq (hiff.mpr hall)),
        iff_of_true rfl ⟨fun hall => heq (hiff.mpr hall), hth⟩,
        iff_of_false (by decide) (by omega),
        trivial, trivial⟩
    · rw [if_neg hth]
      exact ⟨iff_of_false (by decide) (fun hall => heq (hiff.mpr hall)),
        iff_of_false (by decide) (fun h => hth h.2),
        iff_of_true rfl (by omega),
        trivial, trivial⟩
